import Mathlib

/-
Verification of the `general` LLM fan-out client (Go).

The development shallowly embeds the dispatch engine of the repository:
the data model (types.go-style declarations), the attempt executor
`executeSingleRequest`, the retry controller `executeWithRetry` (both the
`time.Sleep` variant of execute.go / the Target-based file and the
context-aware variant of complete.go with `waitForRetry`), the fan-out
scheduler `Execute` / `executeAndSend`, and the single-target operation
`ExecuteOne`.

Modelling conventions:
- The HTTP transport and the JSON decoder are external collaborators; one
  attempt's interaction with them is an `AttemptOutcome` oracle value
  (network failure, non-200 status with body, body-decode failure, or a
  decoded response).  Per-attempt oracles `Nat → AttemptOutcome` replace
  the nondeterminism of the real network.
- Go errors here are plain formatted strings (the code classifies them by
  `strings.Contains` on `err.Error()`), so errors are embedded as the
  exact `String` the Go `fmt.Errorf` calls produce, and `shouldRetry`
  works by substring containment, as in the source.
- `time.Sleep` durations are recorded (in whole seconds) in a trace
  rather than actually elapsing; wall-clock `Duration` measurement is not
  modelled.
- JSON serialization (`encoding/json` on the tagged structs) is modelled
  at the level of a JSON syntax tree: field order follows struct order,
  `omitempty` fields are dropped at their Go zero values, and map keys
  are sorted, as `encoding/json` does.  Go's `float64` temperature is
  modelled as `Rat` (only its zero test matters here) and the `any`
  tool-choice field as `Option Json`.  A nil and an empty Go slice both
  embed to `[]`.
-/

set_option maxRecDepth 100000

/-- Substring containment, the embedding of Go `strings.Contains`. -/
def strContains (s pat : String) : Bool := decide (pat.toList <:+: s.toList)

/-- JSON syntax tree used to model `encoding/json` output. -/
inductive Json where
  | null : Json
  | str (s : String) : Json
  | num (q : Rat) : Json
  | bool (b : Bool) : Json
  | arr (elems : List Json) : Json
  | obj (fields : List (String × Json)) : Json

/-- Top-level keys of a JSON object (in emission order). -/
def Json.keys : Json → List String
  | .obj fields => fields.map Prod.fst
  | _ => []

/-- Provider represents an LLM endpoint configuration (types file). -/
structure Provider where
  Name : String
  Endpoint : String
  APIKey : String
  Model : String
deriving DecidableEq

/-- Target pairs a Provider with the model to request from it. -/
structure Target where
  Provider : Provider
  Model : String
deriving DecidableEq

/-- ToolCallFunction contains the function name and arguments for a tool call. -/
structure ToolCallFunction where
  Name : String
  Arguments : String
deriving DecidableEq

/-- ToolCall represents a tool call made by the model; `Type'` embeds the Go field `Type`. -/
structure ToolCall where
  ID : String
  Type' : String
  Function : ToolCallFunction
deriving DecidableEq

/-- ChatCompletionMessage represents a message in the conversation. -/
structure ChatCompletionMessage where
  Role : String
  Content : String
  ToolCalls : List ToolCall
  ToolCallID : String
deriving DecidableEq

/-- ToolParameterProperty describes a single parameter property. -/
structure ToolParameterProperty where
  Type' : String
  Description : String
  Enum : List String
deriving DecidableEq

/-- ToolParameters describes the parameters for a tool function; the Go
`map[string]ToolParameterProperty` is embedded as an association list. -/
structure ToolParameters where
  Type' : String
  Properties : List (String × ToolParameterProperty)
  Required : List String
deriving DecidableEq

/-- ToolFunc describes a function that can be called by the model. -/
structure ToolFunc where
  Name : String
  Description : String
  Parameters : ToolParameters
deriving DecidableEq

/-- Tool represents a tool definition for the model. -/
structure Tool where
  Type' : String
  Function : ToolFunc
deriving DecidableEq

/-- ChatCompletionRequest represents an OpenAI-compatible chat completion request. -/
structure ChatCompletionRequest where
  Model : String
  Messages : List ChatCompletionMessage
  MaxTokens : Nat
  Temperature : Rat
  Tools : List Tool
  ToolChoice : Option Json

/-- ChatCompletionChoice represents a single choice in the response. -/
structure ChatCompletionChoice where
  Message : ChatCompletionMessage
  FinishReason : String
deriving DecidableEq

/-- ChatCompletionResponse represents an OpenAI-compatible chat completion response. -/
structure ChatCompletionResponse where
  Choices : List ChatCompletionChoice
deriving DecidableEq

/-- Result wraps a response with target info (Duration is not modelled:
it is wall-clock time). -/
structure Result where
  Target : Target
  Response : ChatCompletionResponse
  Error : Option String
deriving DecidableEq

/-- Retry constant from the source: `maxRetries = 3`. -/
def maxRetries : Nat := 3

/-- Retry constant from the source: `baseDelay = time.Second`, in seconds. -/
def baseDelay : Nat := 1

/-- JSON for a tool-call function: tags `name`, `arguments` (no omitempty). -/
def ToolCallFunction.toJson (f : ToolCallFunction) : Json :=
  .obj [("name", .str f.Name), ("arguments", .str f.Arguments)]

/-- JSON for a tool call: tags `id`, `type`, `function` (no omitempty). -/
def ToolCall.toJson (tc : ToolCall) : Json :=
  .obj [("id", .str tc.ID), ("type", .str tc.Type'), ("function", tc.Function.toJson)]

/-- JSON for a message: `role`, then `content`, `tool_calls`, `tool_call_id`,
each of the latter three omitted at its Go zero value (omitempty). -/
def ChatCompletionMessage.toJson (m : ChatCompletionMessage) : Json :=
  .obj ([("role", .str m.Role)]
    ++ (if m.Content = "" then [] else [("content", .str m.Content)])
    ++ (if m.ToolCalls = [] then [] else [("tool_calls", .arr (m.ToolCalls.map ToolCall.toJson))])
    ++ (if m.ToolCallID = "" then [] else [("tool_call_id", .str m.ToolCallID)]))

/-- JSON for a parameter property: `type`, then `description` and `enum` omitempty. -/
def ToolParameterProperty.toJson (p : ToolParameterProperty) : Json :=
  .obj ([("type", .str p.Type')]
    ++ (if p.Description = "" then [] else [("description", .str p.Description)])
    ++ (if p.Enum = [] then [] else [("enum", .arr (p.Enum.map Json.str))]))

/-- JSON for tool parameters: `type`, `properties` (a Go map, so keys are
emitted sorted as `encoding/json` does), `required` omitempty. -/
def ToolParameters.toJson (tp : ToolParameters) : Json :=
  .obj ([("type", .str tp.Type'),
    ("properties", .obj (((tp.Properties.mergeSort (fun a b => a.1 ≤ b.1)).map
      (fun kv => (kv.1, kv.2.toJson)))))]
    ++ (if tp.Required = [] then [] else [("required", .arr (tp.Required.map Json.str))]))

/-- JSON for a tool function: `name`, `description`, `parameters` (no omitempty). -/
def ToolFunc.toJson (f : ToolFunc) : Json :=
  .obj [("name", .str f.Name), ("description", .str f.Description),
    ("parameters", f.Parameters.toJson)]

/-- JSON for a tool definition: `type`, `function` (no omitempty). -/
def Tool.toJson (t : Tool) : Json :=
  .obj [("type", .str t.Type'), ("function", t.Function.toJson)]

/-- JSON for a chat completion request, mirroring `json.Marshal` on the Go
struct: field order `model`, `messages`, `max_tokens` (omitempty),
`temperature` (omitempty), `tools` (omitempty), `tool_choice` (omitempty). -/
def ChatCompletionRequest.toJson (r : ChatCompletionRequest) : Json :=
  .obj ([("model", .str r.Model),
    ("messages", .arr (r.Messages.map ChatCompletionMessage.toJson))]
    ++ (if r.MaxTokens = 0 then [] else [("max_tokens", .num r.MaxTokens)])
    ++ (if r.Temperature = 0 then [] else [("temperature", .num r.Temperature)])
    ++ (if r.Tools = [] then [] else [("tools", .arr (r.Tools.map Tool.toJson))])
    ++ (match r.ToolChoice with
        | none => []
        | some v => [("tool_choice", v)]))

/-- One attempt's interaction with the HTTP transport and the JSON decoder,
supplied by an oracle: either `client.Do` fails, or a response arrives with
a non-200 status (its body read for the error message), or a 200 response
body fails to decode (with the decoder's message), or it decodes. -/
inductive AttemptOutcome where
  | networkError (msg : String) : AttemptOutcome
  | httpStatus (code : Nat) (body : String) : AttemptOutcome
  | decodeFailure (msg : String) : AttemptOutcome
  | decoded (resp : ChatCompletionResponse) : AttemptOutcome

/-- Error text of `fmt.Errorf("HTTP request failed: %w", err)`. -/
def networkMsg (m : String) : String := "HTTP request failed: " ++ m

/-- Error text of `fmt.Errorf("API request failed with status %d: %s", ...)`. -/
def httpStatusMsg (code : Nat) (body : String) : String :=
  "API request failed with status " ++ (Nat.repr code ++ (": " ++ body))

/-- Error text of `fmt.Errorf("failed to decode response: %w", err)`. -/
def decodeMsg (m : String) : String := "failed to decode response: " ++ m

/-- Error text of `fmt.Errorf("no choices in response")`. -/
def noChoicesMsg : String := "no choices in response"

/-- The HTTP request as built by `executeSingleRequest`: method, URL,
headers, and the marshaled body (at JSON-tree level). -/
structure HTTPRequest where
  method : String
  url : String
  headers : List (String × String)
  body : Json

/-- Embedding of `executeSingleRequest` (execute.go / Target variant):
builds the POST request with its two headers, then classifies the
transport/decoder outcome; a decoded response with zero choices is an
error.  Returns the issued request alongside the classified outcome. -/
def executeSingleRequest (target : Target) (requestBody : Json)
    (o : AttemptOutcome) : HTTPRequest × Except String ChatCompletionResponse :=
  ({ method := "POST"
     url := target.Provider.Endpoint
     headers := [("Content-Type", "application/json"),
                 ("Authorization", "Bearer " ++ target.Provider.APIKey)]
     body := requestBody },
   match o with
   | .networkError m => .error (networkMsg m)
   | .httpStatus code body => .error (httpStatusMsg code body)
   | .decodeFailure m => .error (decodeMsg m)
   | .decoded resp =>
       if resp.Choices.length = 0 then .error noChoicesMsg else .ok resp)

/-- Embedding of `shouldRetry`: substring checks on the error text, in
source order. -/
def shouldRetry (errStr : String) : Bool :=
  if strContains errStr "HTTP request failed" then true
  else if strContains errStr "API request failed with status" then
    strContains errStr "status 5"
  else if strContains errStr "failed to decode response" then true
  else false

/-- Error text of the final wrap in the Target variant:
`fmt.Errorf("request to %s/%s failed after %d attempts: %w",
target.Provider.Endpoint, target.Model, maxRetries, lastErr)`.
Note the count is the constant `maxRetries`, not the attempts made. -/
def finalErrorMsg (target : Target) (lastErr : String) : String :=
  "request to " ++ (target.Provider.Endpoint ++ ("/" ++ (target.Model ++
    (" failed after " ++ (Nat.repr maxRetries ++ (" attempts: " ++ lastErr))))))

instance {ε α : Type} [DecidableEq ε] [DecidableEq α] : DecidableEq (Except ε α) := fun x y =>
  match x, y with
  | .ok a, .ok b => if h : a = b then .isTrue (by rw [h]) else .isFalse (by simp [h])
  | .error a, .error b => if h : a = b then .isTrue (by rw [h]) else .isFalse (by simp [h])
  | .ok _, .error _ => .isFalse (by simp)
  | .error _, .ok _ => .isFalse (by simp)

/-- Trace of one run of a retry controller: the outcome, how many
attempts (calls to the attempt executor) were made, and the backoff
sleeps performed between attempts, in seconds. -/
structure RetryTrace where
  outcome : Except String ChatCompletionResponse
  attemptsMade : Nat
  sleeps : List Nat
deriving DecidableEq

/-- Loop body of `executeWithRetry` (execute.go / Target variant):
`for attempt := range maxRetries`, with the three exits of the source
(success; `attempt == maxRetries-1` break; `!shouldRetry` break) and a
`time.Sleep(1<<attempt * baseDelay)` before the next iteration.  `fuel`
is the number of loop iterations remaining (`maxRetries - attempt`). -/
def executeWithRetryAux (target : Target)
    (single : Nat → Except String ChatCompletionResponse) :
    Nat → Nat → String → List Nat → RetryTrace
  | 0, attempt, lastErr, sleeps =>
      ⟨.error (finalErrorMsg target lastErr), attempt, sleeps⟩
  | fuel + 1, attempt, lastErr, sleeps =>
      match single attempt with
      | .ok r => ⟨.ok r, attempt + 1, sleeps⟩
      | .error e =>
          if attempt = maxRetries - 1 then
            ⟨.error (finalErrorMsg target e), attempt + 1, sleeps⟩
          else if shouldRetry e then
            executeWithRetryAux target single fuel (attempt + 1) e
              (sleeps ++ [2 ^ attempt * baseDelay])
          else
            ⟨.error (finalErrorMsg target e), attempt + 1, sleeps⟩

/-- Embedding of `executeWithRetry` (execute.go / Target variant).  The
attempt executor is abstracted as `single` (in the pipeline below it is
`executeSingleRequest` applied to the marshaled body and the transport
oracle); `lastErr` starts empty as the Go `var lastErr error` starts nil. -/
def executeWithRetry (target : Target)
    (single : Nat → Except String ChatCompletionResponse) : RetryTrace :=
  executeWithRetryAux target single maxRetries 0 "" []

/-- The request actually marshaled and sent for one target: the Go
`executeTarget` assigns `req.Model = target.Model` on its value copy of
the caller's request before `json.Marshal`. -/
def targetRequest (target : Target) (req : ChatCompletionRequest) :
    ChatCompletionRequest :=
  { req with Model := target.Model }

/-- Embedding of `executeTarget`: overrides the model on its copy of the
request, marshals it, and runs the retry loop over single requests fed by
the transport oracle. -/
def executeTarget (target : Target) (req : ChatCompletionRequest)
    (oracle : Nat → AttemptOutcome) : RetryTrace :=
  let requestBody := (targetRequest target req).toJson
  executeWithRetry target
    (fun attempt => (executeSingleRequest target requestBody (oracle attempt)).2)

/-- Embedding of `executeAndSend`: runs one target and wraps the outcome
into the single Result it publishes (the Go `Response` is the zero value
when the error is set). -/
def executeAndSend (target : Target) (req : ChatCompletionRequest)
    (oracle : Nat → AttemptOutcome) : Result :=
  match (executeTarget target req oracle).outcome with
  | .ok resp => { Target := target, Response := resp, Error := none }
  | .error e => { Target := target, Response := ⟨[]⟩, Error := some e }

/-- The capacity of the result channel created by `Execute`:
`make(chan Result, len(c.targets))`. -/
def channelCapacity (targets : List Target) : Nat := targets.length

/-- Embedding of `Execute` (the fan-out): one concurrent task per target,
each publishing exactly one Result; the channel contents once all tasks
are done and the channel is closed.  Concurrency collapses to a list in
target order; the claims proved about it are order-insensitive.  The
oracle gives each target its own transport behaviour. -/
def Execute (targets : List Target) (req : ChatCompletionRequest)
    (oracle : Target → Nat → AttemptOutcome) : List Result :=
  targets.map (fun t => executeAndSend t req (oracle t))

/-- Embedding of `ExecuteOne`: errors if no targets are configured, else
runs the first target synchronously. -/
def ExecuteOne (targets : List Target) (req : ChatCompletionRequest)
    (oracle : Target → Nat → AttemptOutcome) :
    Except String ChatCompletionResponse :=
  match targets with
  | [] => .error "no targets configured"
  | t :: _ => (executeTarget t req (oracle t)).outcome

/-- Error text of `ctx.Err()` after `context.CancelFunc` fires
(`context.Canceled.Error()` in Go). -/
def ctxErrMsg : String := "context canceled"

/-- Error text of the final wrap in the context variant (complete.go):
`fmt.Errorf("request to %s failed after %d attempts: %w", provider.Name,
maxRetries, lastErr)`. -/
def finalErrorMsgCtx (provider : Provider) (lastErr : String) : String :=
  "request to " ++ (provider.Name ++
    (" failed after " ++ (Nat.repr maxRetries ++ (" attempts: " ++ lastErr))))

/-- Embedding of `waitForRetry` (complete.go): sleeps
`1<<attempt * baseDelay` under a `select` on `ctx.Done()`; the oracle
`ctxDoneAt attempt` says whether the context fires during that sleep, in
which case `ctx.Err()` is returned instead of completing the sleep.
On success returns the delay slept, in seconds. -/
def waitForRetry (ctxDoneAt : Nat → Bool) (attempt : Nat) :
    Except String Nat :=
  if ctxDoneAt attempt then .error ctxErrMsg
  else .ok (2 ^ attempt * baseDelay)

/-- Loop body of the context-aware `executeWithRetry` (complete.go): as
the Target variant, but the backoff wait goes through `waitForRetry` and
a cancellation there is returned directly (not wrapped in the
retry-exhaustion error). -/
def executeWithRetryCtxAux (provider : Provider)
    (single : Nat → Except String ChatCompletionResponse)
    (ctxDoneAt : Nat → Bool) :
    Nat → Nat → String → List Nat → RetryTrace
  | 0, attempt, lastErr, sleeps =>
      ⟨.error (finalErrorMsgCtx provider lastErr), attempt, sleeps⟩
  | fuel + 1, attempt, lastErr, sleeps =>
      match single attempt with
      | .ok r => ⟨.ok r, attempt + 1, sleeps⟩
      | .error e =>
          if attempt = maxRetries - 1 then
            ⟨.error (finalErrorMsgCtx provider e), attempt + 1, sleeps⟩
          else if shouldRetry e then
            match waitForRetry ctxDoneAt attempt with
            | .error ce => ⟨.error ce, attempt + 1, sleeps⟩
            | .ok d =>
                executeWithRetryCtxAux provider single ctxDoneAt fuel
                  (attempt + 1) e (sleeps ++ [d])
          else
            ⟨.error (finalErrorMsgCtx provider e), attempt + 1, sleeps⟩

/-- Embedding of the context-aware `executeWithRetry` (complete.go). -/
def executeWithRetryCtx (provider : Provider)
    (single : Nat → Except String ChatCompletionResponse)
    (ctxDoneAt : Nat → Bool) : RetryTrace :=
  executeWithRetryCtxAux provider single ctxDoneAt maxRetries 0 "" []

/-- Containment is decided truthfully. -/
theorem strContains_eq_true {s pat : String} (h : pat.toList <:+: s.toList) :
    strContains s pat = true := decide_eq_true h

/-- Characters of an appended string. -/
theorem toList_append (a b : String) : (a ++ b).toList = a.toList ++ b.toList := by
  simp [String.toList]

/-- A pattern found at the start of the left part is found in the whole. -/
theorem strContains_append_left (pat p m : String) (h : pat.toList <+: p.toList) :
    strContains (p ++ m) pat = true := by
  apply strContains_eq_true
  rw [toList_append]
  exact (List.IsPrefix.isInfix h).trans (List.IsPrefix.isInfix ⟨m.toList, rfl⟩)

/-- Decimal rendering of every status code in [500, 600) starts with 5. -/
theorem repr_five : ∀ code : Nat, code < 600 → 500 ≤ code →
    ['5'] <+: (Nat.repr code).toList := by decide

/-- The formatted message of every 5xx status error contains "status 5". -/
theorem contains_status5 (code : Nat) (body : String) (h5 : 500 ≤ code)
    (h6 : code < 600) :
    strContains (httpStatusMsg code body) "status 5" = true := by
  obtain ⟨r, hr⟩ := repr_five code h6 h5
  apply strContains_eq_true
  rw [httpStatusMsg, toList_append, toList_append, toList_append, ← hr]
  refine ⟨"API request failed with ".toList, r ++ (": ".toList ++ body.toList), ?_⟩
  have key : "API request failed with ".toList ++ "status 5".toList
      = "API request failed with status ".toList ++ ['5'] := by decide
  calc ("API request failed with ".toList ++ "status 5".toList)
        ++ (r ++ (": ".toList ++ body.toList))
      = ("API request failed with status ".toList ++ ['5'])
        ++ (r ++ (": ".toList ++ body.toList)) := by rw [key]
    _ = "API request failed with status ".toList
        ++ (['5'] ++ r ++ (": ".toList ++ body.toList)) := by
          simp [List.append_assoc]

/-- Transport failures are always classified retryable: their message
starts with the pattern of the first branch. -/
theorem shouldRetry_network (m : String) : shouldRetry (networkMsg m) = true := by
  have h := strContains_append_left "HTTP request failed" "HTTP request failed: " m (by decide)
  simp [shouldRetry, networkMsg, h]

/-- The message of every status error contains the status-branch pattern. -/
theorem contains_api_status (code : Nat) (body : String) :
    strContains (httpStatusMsg code body) "API request failed with status" = true := by
  rw [httpStatusMsg]
  exact strContains_append_left _ _ _ (by decide)

/-- Every 5xx status error is classified retryable, whatever the body. -/
theorem shouldRetry_http5xx (code : Nat) (body : String) (h5 : 500 ≤ code)
    (h6 : code < 600) : shouldRetry (httpStatusMsg code body) = true := by
  have hb2 := contains_api_status code body
  have hb5 := contains_status5 code body h5 h6
  by_cases h1 : strContains (httpStatusMsg code body) "HTTP request failed" = true <;>
    simp [shouldRetry, h1, hb2, hb5]

/-- A status error whose text avoids both retry patterns is not retried. -/
theorem shouldRetry_http_not5 (code : Nat) (body : String)
    (h1 : strContains (httpStatusMsg code body) "HTTP request failed" = false)
    (h2 : strContains (httpStatusMsg code body) "status 5" = false) :
    shouldRetry (httpStatusMsg code body) = false := by
  have hb2 := contains_api_status code body
  simp [shouldRetry, h1, hb2, h2]

/-- A decode failure whose text does not accidentally contain the
status-branch pattern is classified retryable. -/
theorem shouldRetry_decode (m : String)
    (h : strContains (decodeMsg m) "API request failed with status" = false) :
    shouldRetry (decodeMsg m) = true := by
  have hb3 : strContains (decodeMsg m) "failed to decode response" = true := by
    rw [decodeMsg]; exact strContains_append_left _ _ _ (by decide)
  by_cases h1 : strContains (decodeMsg m) "HTTP request failed" = true <;>
    simp [shouldRetry, h1, h, hb3]

/-- The empty-choices error is never retried. -/
theorem shouldRetry_noChoices : shouldRetry noChoicesMsg = false := by decide

/-- Modelled from the spec: the retry decision table of the error-handling
design — Network retryable; HTTPStatus 5xx retryable; HTTPStatus 4xx not;
Decode retryable; EmptyChoices (a decoded response, once it errors) not.
This is the spec-side comparator for the classification claim. -/
def specRetryDecision : AttemptOutcome → Bool
  | .networkError _ => true
  | .httpStatus code _ => decide (500 ≤ code)
  | .decodeFailure _ => true
  | .decoded _ => false

/-- The status-code range the classification claim constrains: [400, 600)
for HTTP status failures; no constraint on other outcomes. -/
def statusInClaimRange : AttemptOutcome → Bool
  | .httpStatus code _ => decide (400 ≤ code) && decide (code < 600)
  | _ => true

/-- Free text embedded in an error (the response body of a status error,
the decoder message of a decode failure) does not collide with the
substring patterns `shouldRetry` matches on.  Real providers and
`encoding/json` do not produce such collisions, but the code offers no
guarantee — see the counterexample below. -/
def cleanErrorText : AttemptOutcome → Bool
  | .httpStatus code body =>
      if code < 500 then
        !(strContains (httpStatusMsg code body) "HTTP request failed")
          && !(strContains (httpStatusMsg code body) "status 5")
      else true
  | .decodeFailure m => !(strContains (decodeMsg m) "API request failed with status")
  | _ => true

/-- Sample provider for concrete evaluations. -/
def exProvider : Provider :=
  { Name := "openrouter"
    Endpoint := "https://example.com/v1/chat/completions"
    APIKey := "k"
    Model := "" }

/-- Sample target for concrete evaluations. -/
def exTarget : Target := { Provider := exProvider, Model := "m1" }

/-- Sample request for concrete evaluations. -/
def exReq : ChatCompletionRequest :=
  { Model := ""
    Messages := [{ Role := "user", Content := "hi", ToolCalls := [], ToolCallID := "" }]
    MaxTokens := 0
    Temperature := 0
    Tools := []
    ToolChoice := none }

/-- Sample non-empty response for concrete evaluations. -/
def exResp : ChatCompletionResponse :=
  ⟨[⟨⟨"assistant", "ok", [], ""⟩, "stop"⟩]⟩

/-- C2 (amended): for every failed attempt whose embedded free text does
not collide with the classifier's substring patterns and whose status
code (if any) lies in [400, 600), the string-matching retry decision of
`shouldRetry` agrees exactly with the spec's classification table:
network and decode failures and 5xx statuses retried, 4xx statuses and
empty-choices responses not. -/
theorem retry_decision_follows_classification (t : Target) (body : Json)
    (o : AttemptOutcome) (msg : String)
    (herr : (executeSingleRequest t body o).2 = .error msg)
    (hrange : statusInClaimRange o = true)
    (hclean : cleanErrorText o = true) :
    shouldRetry msg = specRetryDecision o := by
  cases o with
  | networkError m =>
      simp only [executeSingleRequest, Except.error.injEq] at herr
      subst herr
      simp [specRetryDecision, shouldRetry_network]
  | httpStatus code b =>
      simp only [executeSingleRequest, Except.error.injEq] at herr
      subst herr
      simp only [statusInClaimRange, Bool.and_eq_true, decide_eq_true_eq] at hrange
      by_cases h5 : 500 ≤ code
      · simp [specRetryDecision, h5, shouldRetry_http5xx code b h5 hrange.2]
      · have hlt : code < 500 := by omega
        simp only [cleanErrorText, if_pos hlt, Bool.and_eq_true, Bool.not_eq_true'] at hclean
        simp [specRetryDecision, h5, shouldRetry_http_not5 code b hclean.1 hclean.2]
  | decodeFailure m =>
      simp only [executeSingleRequest, Except.error.injEq] at herr
      subst herr
      simp only [cleanErrorText, Bool.not_eq_true'] at hclean
      simp [specRetryDecision, shouldRetry_decode m hclean]
  | decoded resp =>
      by_cases hlen : resp.Choices.length = 0
      · simp only [executeSingleRequest, hlen, if_true, if_pos hlen, Except.error.injEq] at herr
        subst herr
        simp [specRetryDecision, shouldRetry_noChoices]
      · simp [executeSingleRequest, hlen] at herr

/-- C2 counterexample: a 404 — a client error the claim says is never
retried — whose response body happens to contain "status 503" is
classified retryable by the code, because `shouldRetry` searches the
whole formatted error text (body included) for "status 5". -/
theorem client_error_with_5xx_body_is_retried :
    (executeSingleRequest exTarget Json.null
        (.httpStatus 404 "upstream gateway returned status 503")).2
      = Except.error (httpStatusMsg 404 "upstream gateway returned status 503")
    ∧ shouldRetry (httpStatusMsg 404 "upstream gateway returned status 503") = true
    ∧ specRetryDecision (.httpStatus 404 "upstream gateway returned status 503") = false :=
  ⟨rfl, by decide, by decide⟩

/-- C2 witness: the amended theorem applied to a plain 404. -/
theorem retry_decision_follows_classification_witness :
    shouldRetry (httpStatusMsg 404 "not found")
      = specRetryDecision (.httpStatus 404 "not found") :=
  retry_decision_follows_classification exTarget Json.null
    (.httpStatus 404 "not found") (httpStatusMsg 404 "not found") rfl
    (by decide) (by decide)

/-- Invariant of the retry loop of `executeWithRetryAux`: starting at
`attempt` with the sleeps of the previous attempts recorded, the loop
makes at most `maxRetries` attempts in total, makes at least one more,
and its recorded sleeps are exactly `2^0, 2^1, ...` seconds, one fewer
than the attempts made. -/
theorem executeWithRetryAux_spec (t : Target)
    (single : Nat → Except String ChatCompletionResponse) :
    ∀ fuel attempt lastErr, fuel + attempt = maxRetries → attempt < maxRetries →
    ∀ r, r = executeWithRetryAux t single fuel attempt lastErr
        ((List.range attempt).map (fun i => 2 ^ i * baseDelay)) →
      r.attemptsMade ≤ maxRetries ∧ attempt < r.attemptsMade ∧
      r.sleeps = (List.range (r.attemptsMade - 1)).map (fun i => 2 ^ i * baseDelay) := by
  intro fuel
  induction fuel with
  | zero =>
      intro attempt lastErr hsum hlt
      omega
  | succ fuel ih =>
      intro attempt lastErr hsum hlt r hr
      rw [executeWithRetryAux] at hr
      cases hs : single attempt with
      | ok v =>
          rw [hs] at hr
          dsimp only at hr
          subst hr
          dsimp only
          refine ⟨by omega, by omega, by simp⟩
      | error e =>
          rw [hs] at hr
          dsimp only at hr
          by_cases ha : attempt = maxRetries - 1
          · rw [if_pos ha] at hr
            subst hr
            dsimp only
            refine ⟨by omega, by omega, by simp⟩
          · rw [if_neg ha] at hr
            by_cases hb : shouldRetry e
            · rw [if_pos hb] at hr
              have hrange : (List.range attempt).map (fun i => 2 ^ i * baseDelay)
                  ++ [2 ^ attempt * baseDelay]
                  = (List.range (attempt + 1)).map (fun i => 2 ^ i * baseDelay) := by
                simp [List.range_succ]
              rw [hrange] at hr
              exact
                have h1 : fuel + (attempt + 1) = maxRetries := by omega
                have h2 : attempt + 1 < maxRetries := by
                  simp only [maxRetries] at hsum hlt ha ⊢
                  omega
                have h3 := ih (attempt + 1) e h1 h2 r hr
                ⟨h3.1, by omega, h3.2.2⟩
            · rw [if_neg hb] at hr
              subst hr
              dsimp only
              refine ⟨by omega, by omega, by simp⟩

/-- C3: every run of the retry controller makes at most 3 attempts and
sleeps exactly `2^attempt` seconds between consecutive attempts (one
sleep fewer than attempts made, so never after the final attempt); and a
target answering HTTP 500 on attempts 1 and 2 and a decodable non-empty
response on attempt 3 succeeds with exactly 3 attempts and sleeps of 1s
then 2s. -/
theorem retry_bounded_with_exponential_backoff :
    (∀ (t : Target) (single : Nat → Except String ChatCompletionResponse),
      (executeWithRetry t single).attemptsMade ≤ maxRetries ∧
      (executeWithRetry t single).sleeps
        = (List.range ((executeWithRetry t single).attemptsMade - 1)).map
            (fun i => 2 ^ i * baseDelay))
    ∧ (∀ (t : Target) (req : ChatCompletionRequest)
        (oracle : Nat → AttemptOutcome) (b1 b2 : String)
        (resp : ChatCompletionResponse),
        oracle 0 = .httpStatus 500 b1 → oracle 1 = .httpStatus 500 b2 →
        oracle 2 = .decoded resp → resp.Choices ≠ [] →
        executeTarget t req oracle
          = ⟨.ok resp, 3, [1, 2]⟩) := by
  constructor
  · intro t single
    have h := executeWithRetryAux_spec t single maxRetries 0 ""
      (by omega) (by simp [maxRetries]) (executeWithRetry t single)
      (by simp [executeWithRetry])
    exact ⟨h.1, h.2.2⟩
  · intro t req oracle b1 b2 resp h0 h1 h2 hc
    have r1 := shouldRetry_http5xx 500 b1 (by omega) (by omega)
    have r2 := shouldRetry_http5xx 500 b2 (by omega) (by omega)
    have hlen : ¬resp.Choices.length = 0 := by
      simpa [List.length_eq_zero] using hc
    simp [executeTarget, executeWithRetry, executeWithRetryAux,
      executeSingleRequest, h0, h1, h2, r1, r2, hlen, maxRetries, baseDelay]

/-- Oracle for the C3 scenario: 500, 500, then a good response. -/
def exOracle500 : Nat → AttemptOutcome := fun n =>
  if n = 0 then .httpStatus 500 "" else
  if n = 1 then .httpStatus 500 "" else .decoded exResp

/-- C3 witness: the 500/500/success scenario evaluated concretely. -/
theorem retry_bounded_with_exponential_backoff_witness :
    executeTarget exTarget exReq exOracle500
      = ⟨.ok exResp, 3, [1, 2]⟩ :=
  retry_bounded_with_exponential_backoff.2 exTarget exReq exOracle500 "" ""
    exResp rfl rfl rfl (by simp [exResp])

/-- Invariant of the retry loop: whenever a run that started inside the
loop ends in an error, that error is the final wrap of the classified
error of the very last attempt made (the one at index
`attemptsMade - 1`). -/
theorem executeWithRetryAux_error_wraps_last (t : Target)
    (single : Nat → Except String ChatCompletionResponse) :
    ∀ fuel attempt lastErr sleeps msg,
      fuel + attempt = maxRetries → attempt < maxRetries →
      ∀ r, r = executeWithRetryAux t single fuel attempt lastErr sleeps →
      r.outcome = .error msg →
      ∃ e, single (r.attemptsMade - 1) = .error e ∧ msg = finalErrorMsg t e := by
  intro fuel
  induction fuel with
  | zero =>
      intro attempt lastErr sleeps msg hsum hlt
      omega
  | succ fuel ih =>
      intro attempt lastErr sleeps msg hsum hlt r hr hout
      rw [executeWithRetryAux] at hr
      cases hs : single attempt with
      | ok v =>
          rw [hs] at hr
          dsimp only at hr
          subst hr
          simp at hout
      | error e =>
          rw [hs] at hr
          dsimp only at hr
          by_cases ha : attempt = maxRetries - 1
          · rw [if_pos ha] at hr
            subst hr
            dsimp only at hout ⊢
            simp only [Except.error.injEq] at hout
            exact ⟨e, by simpa using hs, hout.symm⟩
          · rw [if_neg ha] at hr
            by_cases hb : shouldRetry e
            · rw [if_pos hb] at hr
              exact ih (attempt + 1) e (sleeps ++ [2 ^ attempt * baseDelay]) msg
                (by omega)
                (by simp only [maxRetries] at hsum hlt ha ⊢; omega)
                r hr hout
            · rw [if_neg hb] at hr
              subst hr
              dsimp only at hout ⊢
              simp only [Except.error.injEq] at hout
              exact ⟨e, by simpa using hs, hout.symm⟩

/-- C4 (amended): whenever all attempts for a target fail, the final
error wraps the classified error of the last attempt actually made, the
target identity, and the configured maximum attempt count
(`maxRetries` = 3) — not the number of attempts actually made; in
particular a target failing with a non-retryable HTTP 404 on its first
attempt (body text not colliding with the retry patterns) stops after
exactly 1 attempt with no sleep, its final error reporting 3 attempts. -/
theorem final_error_wraps_last_error_and_constant_count :
    (∀ (t : Target) (req : ChatCompletionRequest)
        (oracle : Nat → AttemptOutcome) (msg : String),
        (executeTarget t req oracle).outcome = .error msg →
        ∃ e, (executeSingleRequest t (targetRequest t req).toJson
              (oracle ((executeTarget t req oracle).attemptsMade - 1))).2
            = .error e
          ∧ msg = finalErrorMsg t e)
    ∧ (∀ (t : Target) (req : ChatCompletionRequest)
        (oracle : Nat → AttemptOutcome) (body : String),
        oracle 0 = .httpStatus 404 body →
        strContains (httpStatusMsg 404 body) "HTTP request failed" = false →
        strContains (httpStatusMsg 404 body) "status 5" = false →
        (executeTarget t req oracle).attemptsMade = 1 ∧
        (executeTarget t req oracle).sleeps = [] ∧
        (executeTarget t req oracle).outcome
          = .error (finalErrorMsg t (httpStatusMsg 404 body))) := by
  constructor
  · intro t req oracle msg hfail
    exact executeWithRetryAux_error_wraps_last t
      (fun a => (executeSingleRequest t (targetRequest t req).toJson (oracle a)).2)
      maxRetries 0 "" [] msg (by omega) (by simp [maxRetries])
      (executeTarget t req oracle) rfl hfail
  · intro t req oracle body h0 hc1 hc2
    have hr := shouldRetry_http_not5 404 body hc1 hc2
    refine ⟨?_, ?_, ?_⟩ <;>
      simp [executeTarget, executeWithRetry, executeWithRetryAux,
        executeSingleRequest, h0, hr, maxRetries]

/-- C4 counterexample: a 404 on the first attempt gives up after exactly
1 attempt, but the final error message reports "after 3 attempts"
(`maxRetries`), not an attempt count of 1 as the claim states. -/
theorem final_error_reports_constant_attempt_count :
    (executeTarget exTarget exReq (fun _ => .httpStatus 404 "not found")).attemptsMade = 1
    ∧ (executeTarget exTarget exReq (fun _ => .httpStatus 404 "not found")).outcome
      = .error "request to https://example.com/v1/chat/completions/m1 failed after 3 attempts: API request failed with status 404: not found"
    ∧ strContains "request to https://example.com/v1/chat/completions/m1 failed after 3 attempts: API request failed with status 404: not found" "after 3 attempts" = true
    ∧ strContains "request to https://example.com/v1/chat/completions/m1 failed after 3 attempts: API request failed with status 404: not found" "after 1 attempt" = false :=
  ⟨by decide, by decide, by decide, by decide⟩

/-- C4 witness: both clauses of the amended theorem applied to a
concrete 404 run. -/
theorem final_error_wraps_last_error_and_constant_count_witness :
    ((executeTarget exTarget exReq (fun _ => .httpStatus 404 "nope")).attemptsMade = 1 ∧
     (executeTarget exTarget exReq (fun _ => .httpStatus 404 "nope")).sleeps = [] ∧
     (executeTarget exTarget exReq (fun _ => .httpStatus 404 "nope")).outcome
       = .error (finalErrorMsg exTarget (httpStatusMsg 404 "nope")))
    ∧ (∃ e, (executeSingleRequest exTarget (targetRequest exTarget exReq).toJson
          ((fun _ => AttemptOutcome.httpStatus 404 "nope")
            ((executeTarget exTarget exReq
              (fun _ => .httpStatus 404 "nope")).attemptsMade - 1))).2
        = .error e
      ∧ finalErrorMsg exTarget (httpStatusMsg 404 "nope") = finalErrorMsg exTarget e) :=
  have h2 := final_error_wraps_last_error_and_constant_count.2 exTarget exReq
    (fun _ => .httpStatus 404 "nope") "nope" rfl (by decide) (by decide)
  have h1 := final_error_wraps_last_error_and_constant_count.1 exTarget exReq
    (fun _ => .httpStatus 404 "nope")
    (finalErrorMsg exTarget (httpStatusMsg 404 "nope")) h2.2.2
  ⟨h2, h1⟩

/-- A cancellation error can never coincide with a retry-exhaustion
error: the two strings start with different characters. -/
theorem ctxErr_ne_finalError (p : Provider) :
    ∀ e, ctxErrMsg ≠ finalErrorMsgCtx p e := by
  intro e h
  have hco := congrArg (fun s : String => s.toList.head?) h
  simp only [] at hco
  have h2 : ∀ s : String, ("request to " ++ s).toList.head? = some 'r' := by
    intro s
    rw [toList_append]
    rw [show ("request to ").toList = 'r' :: "equest to ".toList from by decide]
    rfl
  rw [show ctxErrMsg = "context canceled" from rfl,
    show finalErrorMsgCtx p e = "request to " ++ (p.Name ++ (" failed after "
      ++ (Nat.repr maxRetries ++ (" attempts: " ++ e)))) from rfl] at hco
  rw [h2] at hco
  have : ("context canceled").toList.head? = some 'c' := by decide
  rw [this] at hco
  simp at hco

/-- C5: in the context-aware controller, if the cancellation signal fires
during the backoff sleep following attempt k (the run having reached that
sleep through retryable failures), the controller stops at once — no
further attempt, the interrupted sleep not completed — and returns the
cancellation error, which differs from every retry-exhaustion error. -/
theorem cancellation_during_backoff_cancels_promptly (p : Provider)
    (single : Nat → Except String ChatCompletionResponse)
    (ctxDoneAt : Nat → Bool) (k : Nat) (hk : k < maxRetries - 1)
    (hfail : ∀ j, j ≤ k → ∃ e, single j = .error e ∧ shouldRetry e = true)
    (hlive : ∀ j, j < k → ctxDoneAt j = false)
    (hdone : ctxDoneAt k = true) :
    (executeWithRetryCtx p single ctxDoneAt).outcome = .error ctxErrMsg ∧
    (executeWithRetryCtx p single ctxDoneAt).attemptsMade = k + 1 ∧
    (executeWithRetryCtx p single ctxDoneAt).sleeps
      = (List.range k).map (fun i => 2 ^ i * baseDelay) ∧
    (∀ e, ctxErrMsg ≠ finalErrorMsgCtx p e) := by
  have hk2 : k < 2 := by simpa [maxRetries] using hk
  interval_cases k
  · obtain ⟨e0, he0, hr0⟩ := hfail 0 (by omega)
    refine ⟨?_, ?_, ?_, ctxErr_ne_finalError p⟩ <;>
      simp [executeWithRetryCtx, executeWithRetryCtxAux, he0, hr0,
        waitForRetry, hdone, maxRetries]
  · obtain ⟨e0, he0, hr0⟩ := hfail 0 (by omega)
    obtain ⟨e1, he1, hr1⟩ := hfail 1 (by omega)
    have hl0 := hlive 0 (by omega)
    refine ⟨?_, ?_, ?_, ctxErr_ne_finalError p⟩ <;>
      simp [executeWithRetryCtx, executeWithRetryCtxAux, he0, hr0, he1, hr1,
        waitForRetry, hl0, hdone, maxRetries, baseDelay] <;> decide

/-- C5 witness: context already cancelled when the first backoff starts. -/
theorem cancellation_during_backoff_cancels_promptly_witness :
    (executeWithRetryCtx exProvider (fun _ => .error (networkMsg "boom"))
      (fun _ => true)).outcome = .error ctxErrMsg ∧
    (executeWithRetryCtx exProvider (fun _ => .error (networkMsg "boom"))
      (fun _ => true)).attemptsMade = 1 ∧
    (executeWithRetryCtx exProvider (fun _ => .error (networkMsg "boom"))
      (fun _ => true)).sleeps = [] :=
  have h := cancellation_during_backoff_cancels_promptly exProvider
    (fun _ => .error (networkMsg "boom")) (fun _ => true) 0 (by decide)
    (fun _ _ => ⟨networkMsg "boom", rfl, shouldRetry_network "boom"⟩)
    (fun j hj => absurd hj (by omega)) rfl
  ⟨h.1, h.2.1, by simpa using h.2.2.1⟩

/-- C6: a response that decodes but has zero choices is classified a
failure by the attempt executor; that failure is never retried, so the
target's outcome is an error after exactly 1 attempt with no sleep. -/
theorem empty_choices_is_error_never_retried (t : Target)
    (req : ChatCompletionRequest) (oracle : Nat → AttemptOutcome)
    (resp : ChatCompletionResponse) (h0 : oracle 0 = .decoded resp)
    (hempty : resp.Choices = []) :
    (executeSingleRequest t (targetRequest t req).toJson (oracle 0)).2
      = .error noChoicesMsg ∧
    shouldRetry noChoicesMsg = false ∧
    (executeTarget t req oracle).attemptsMade = 1 ∧
    (executeTarget t req oracle).sleeps = [] ∧
    (executeTarget t req oracle).outcome = .error (finalErrorMsg t noChoicesMsg) := by
  refine ⟨?_, shouldRetry_noChoices, ?_, ?_, ?_⟩ <;>
    simp [executeTarget, executeWithRetry, executeWithRetryAux,
      executeSingleRequest, h0, hempty, shouldRetry_noChoices, maxRetries]

/-- C6 witness: a concrete run on an empty-choices response. -/
theorem empty_choices_is_error_never_retried_witness :
    (executeSingleRequest exTarget (targetRequest exTarget exReq).toJson
      ((fun _ => AttemptOutcome.decoded ⟨[]⟩) 0)).2 = .error noChoicesMsg ∧
    shouldRetry noChoicesMsg = false ∧
    (executeTarget exTarget exReq (fun _ => .decoded ⟨[]⟩)).attemptsMade = 1 ∧
    (executeTarget exTarget exReq (fun _ => .decoded ⟨[]⟩)).sleeps = [] ∧
    (executeTarget exTarget exReq (fun _ => .decoded ⟨[]⟩)).outcome
      = .error (finalErrorMsg exTarget noChoicesMsg) :=
  empty_choices_is_error_never_retried exTarget exReq
    (fun _ => .decoded ⟨[]⟩) ⟨[]⟩ rfl rfl

/-- C7: dispatch never mutates the caller's Request.  The request sent to
a target agrees with the caller's on every field except the model, whose
sent value is the target's configured model; stripping the model override
recovers the caller's request exactly (so two targets receive the same
request apart from the model), and the caller's value is untouched — the
Go code assigns the model on a by-value copy inside `executeTarget`. -/
theorem request_read_only_model_overridden (t t₁ t₂ : Target)
    (req : ChatCompletionRequest) :
    (targetRequest t req).Model = t.Model ∧
    (targetRequest t req).Messages = req.Messages ∧
    (targetRequest t req).MaxTokens = req.MaxTokens ∧
    (targetRequest t req).Temperature = req.Temperature ∧
    (targetRequest t req).Tools = req.Tools ∧
    (targetRequest t req).ToolChoice = req.ToolChoice ∧
    { targetRequest t₁ req with Model := req.Model }
      = { targetRequest t₂ req with Model := req.Model } ∧
    { targetRequest t₁ req with Model := req.Model } = req :=
  ⟨rfl, rfl, rfl, rfl, rfl, rfl, rfl, rfl⟩

/-- C8: every attempt issues a POST to the target's endpoint with the
Content-Type and Bearer-Authorization headers, its body the JSON
serialization of the model-overridden request; and that serialization
carries exactly the keys `model`, `messages`, then `max_tokens`,
`temperature`, `tools`, `tool_choice`, each of the last four omitted at
its zero/absent value. -/
theorem attempt_wire_contract (t : Target) (req : ChatCompletionRequest)
    (o : AttemptOutcome) (r : ChatCompletionRequest) :
    (executeSingleRequest t (targetRequest t req).toJson o).1.method = "POST" ∧
    (executeSingleRequest t (targetRequest t req).toJson o).1.url
      = t.Provider.Endpoint ∧
    (executeSingleRequest t (targetRequest t req).toJson o).1.headers
      = [("Content-Type", "application/json"),
         ("Authorization", "Bearer " ++ t.Provider.APIKey)] ∧
    (executeSingleRequest t (targetRequest t req).toJson o).1.body
      = (targetRequest t req).toJson ∧
    (targetRequest t req).Model = t.Model ∧
    (ChatCompletionRequest.toJson r).keys
      = ["model", "messages"]
        ++ (if r.MaxTokens = 0 then [] else ["max_tokens"])
        ++ (if r.Temperature = 0 then [] else ["temperature"])
        ++ (if r.Tools = [] then [] else ["tools"])
        ++ (match r.ToolChoice with | none => [] | some _ => ["tool_choice"]) := by
  refine ⟨rfl, rfl, rfl, rfl, rfl, ?_⟩
  cases hTC : r.ToolChoice <;>
    by_cases h1 : r.MaxTokens = 0 <;> by_cases h2 : r.Temperature = 0 <;>
    by_cases h3 : r.Tools = [] <;>
    simp [ChatCompletionRequest.toJson, Json.keys, h1, h2, h3, hTC]

/-- C9: the single-target operation returns an explicit error (and
consults no transport oracle, hence performs no network attempt) when no
targets are configured, and otherwise runs exactly the first configured
target, independent of the rest; totality of the definition rules out a
panic. -/
theorem execute_one_handles_empty_and_uses_first (req : ChatCompletionRequest)
    (oracle oracle' : Target → Nat → AttemptOutcome) (t : Target)
    (ts ts' : List Target) :
    ExecuteOne [] req oracle = .error "no targets configured" ∧
    ExecuteOne [] req oracle = ExecuteOne [] req oracle' ∧
    ExecuteOne (t :: ts) req oracle = ExecuteOne (t :: ts') req oracle ∧
    ExecuteOne (t :: ts) req oracle = (executeTarget t req (oracle t)).outcome :=
  ⟨rfl, rfl, rfl, rfl⟩

/-- C1: a dispatch over N targets yields exactly N Results — the
per-target task publishes exactly one Result whatever the outcome — and
the multiset of target identities carried by the Results is exactly the
configured target list (each configured target exactly once); the model
returns the complete, closed stream contents. -/
theorem dispatch_yields_exactly_one_result_per_target (targets : List Target)
    (req : ChatCompletionRequest) (oracle : Target → Nat → AttemptOutcome) :
    (Execute targets req oracle).length = targets.length ∧
    (Execute targets req oracle).map Result.Target = targets ∧
    ∀ t, ((Execute targets req oracle).map Result.Target).count t
      = targets.count t := by
  have hT : ∀ t, (executeAndSend t req (oracle t)).Target = t := by
    intro t
    unfold executeAndSend
    cases (executeTarget t req (oracle t)).outcome <;> rfl
  have h2 : (Execute targets req oracle).map Result.Target = targets := by
    rw [Execute, List.map_map]
    have hcong : ∀ a ∈ targets,
        (Result.Target ∘ fun t => executeAndSend t req (oracle t)) a = id a :=
      fun a _ => hT a
    rw [List.map_congr_left hcong, List.map_id]
  exact ⟨by simp [Execute], h2, fun t => by rw [h2]⟩

/-- Events on the result channel: a producer task publishing one Result,
or the consumer taking one. -/
inductive ChanEvent where
  | send : ChanEvent
  | recv : ChanEvent
deriving DecidableEq

/-- One event's effect on buffer occupancy (a take from an empty buffer
cannot happen in Go; truncated subtraction keeps it at zero here). -/
def occupancyStep (n : Nat) (e : ChanEvent) : Nat :=
  match e with
  | .send => n + 1
  | .recv => n - 1

/-- Buffer occupancy of the result channel after a sequence of events. -/
def occupancy (events : List ChanEvent) : Nat :=
  events.foldl occupancyStep 0

/-- Occupancy never exceeds the number of sends so far. -/
theorem occupancy_le_sends : ∀ (events : List ChanEvent) (n : Nat),
    events.foldl occupancyStep n ≤ n + events.count ChanEvent.send := by
  intro events
  induction events with
  | nil => intro n; simp
  | cons e rest ih =>
      intro n
      cases e with
      | send =>
          have h := ih (n + 1)
          simp only [List.foldl_cons, occupancyStep, List.count_cons,
            beq_self_eq_true, if_true]
          omega
      | recv =>
          have h := ih (n - 1)
          simp only [List.foldl_cons, occupancyStep, List.count_cons]
          omega

/-- C10: the result channel is created with capacity equal to the number
of configured targets, the dispatch performs exactly that many sends (one
per target), and therefore at the moment of any send — whatever the
consumer has or has not taken — the buffer occupancy is strictly below
the capacity, so no publish can ever block and every producer task
terminates, letting the supervising task close the channel. -/
theorem buffered_sends_never_block (targets : List Target)
    (req : ChatCompletionRequest) (oracle : Target → Nat → AttemptOutcome)
    (pre post : List ChanEvent)
    (htrace : (pre ++ ChanEvent.send :: post).count ChanEvent.send
      = (Execute targets req oracle).length) :
    channelCapacity targets = targets.length ∧
    (Execute targets req oracle).length = channelCapacity targets ∧
    occupancy pre < channelCapacity targets := by
  have hlen : (Execute targets req oracle).length = targets.length := by
    simp [Execute]
  refine ⟨rfl, by rw [hlen, channelCapacity], ?_⟩
  have h1 : occupancy pre ≤ pre.count ChanEvent.send := by
    simpa using occupancy_le_sends pre 0
  have h2 : (pre ++ ChanEvent.send :: post).count ChanEvent.send
      = pre.count ChanEvent.send + (post.count ChanEvent.send + 1) := by
    simp [List.count_append, List.count_cons]
  rw [hlen] at htrace
  simp only [channelCapacity]
  omega

/-- C10 witness: one target, its single send into the empty buffer. -/
theorem buffered_sends_never_block_witness :
    channelCapacity [exTarget] = [exTarget].length ∧
    (Execute [exTarget] exReq (fun _ _ => .decoded exResp)).length
      = channelCapacity [exTarget] ∧
    occupancy [] < channelCapacity [exTarget] :=
  buffered_sends_never_block [exTarget] exReq (fun _ _ => .decoded exResp)
    [] [] rfl
